import Mathlib

/-!
Verification of `examples/speedup/main_reload_idv.py` (kjl_reload).

A shallow embedding of the model-reload benchmark: reconstruction of
detector/projection objects from persisted parameter mappings
(`evaluate_model`, lines 136-168), the stage-timed evaluation routine
(`_test`, lines 50-109), the trial-averaging loop (lines 173-188), the
unit-scaling helpers (`format_unit`, `get_model_space`,
`get_test_set_space`), and the per-repeat aggregation loop of `main`
(lines 336-367).

Conventions of the embedding:
* Numeric values measured or averaged by the code (times, AUCs, sizes)
  are rationals (`ℚ`); Python floats are modelled exactly.
* A parameter snapshot (a Python `dict`) is an association list
  `List (String × V)` over an abstract value type `V`; a missing key
  (Python `KeyError`) is the `malformedSnapshot` error, and the
  `raise NotImplementedError()` branch is the `unsupportedVariant` error.
* Wall-clock measurements of the profiled blocks are oracle inputs: the
  measured time of the projection block is an arbitrary rational when a
  transform actually runs, and zero when the block body is `pass`;
  likewise the measured time of the prediction block is an oracle input.
* `copy.deepcopy` on values is the identity in a pure embedding; trial
  independence is value semantics.
-/

namespace KjlReload

/-- Test that the first character list starts the second
(character-by-character equality). Used to embed the Python substring
containment test. -/
def isPrefixOfChars : List Char → List Char → Bool
  | [], _ => true
  | _ :: _, [] => false
  | a :: as, b :: bs => a == b && isPrefixOfChars as bs

/-- Embed the Python string test `pat in s`: `pat` occurs as a
contiguous substring of `s`. -/
def strContains (s pat : String) : Bool :=
  go s.toList pat.toList
where
  go : List Char → List Char → Bool
    | l, pat =>
      match l with
      | [] => pat.isEmpty
      | _ :: t => isPrefixOfChars pat l || go t pat

/-- A parameter snapshot: a Python `dict` of field name to value, over an
abstract value type `V` (scalars and numpy arrays are opaque payloads). -/
def Params (V : Type) : Type := List (String × V)

/-- Embed the Python dict access `d[k]`, returning `none` where Python
raises `KeyError`. -/
def lookup {V : Type} (d : Params V) (k : String) : Option V :=
  match d with
  | [] => none
  | (k', v) :: rest => if k' = k then some v else lookup rest k

/-- The error outcomes of the reconstruction step of `evaluate_model`:
`unsupportedVariant` is the `raise NotImplementedError()` of the final
`else` branch (line 168); `malformedSnapshot` is the `KeyError` raised by
indexing the parameter dict with a missing required field. -/
inductive ReloadError : Type
  | unsupportedVariant
  | malformedSnapshot
  deriving DecidableEq, Repr

/-- Fields of a reconstructed `KJL` projection, exactly the ones assigned
in `evaluate_model` lines 138-140. -/
structure KJLProj (V : Type) : Type where
  sigma : V
  Xrow : V
  U : V
  deriving DecidableEq, Repr

/-- Fields of a reconstructed `NYSTROM` projection, exactly the ones
assigned in `evaluate_model` lines 144-146. -/
structure NystromProj (V : Type) : Type where
  sigma : V
  Xrow : V
  eigvec_lambda : V
  deriving DecidableEq, Repr

/-- The projection object rebuilt by step 1 of `evaluate_model`. -/
inductive Projection (V : Type) : Type
  | kjl (p : KJLProj V)
  | nystrom (p : NystromProj V)
  deriving DecidableEq, Repr

/-- Fields of a reconstructed `OCSVM` detector, exactly the ones assigned
in `evaluate_model` lines 155-159 (note the source keys `_gamma`,
`_dual_coef_`, `_intercept_`). -/
structure OCSVMModel (V : Type) : Type where
  kernel : V
  gamma : V
  support_vectors_ : V
  dual_coef_ : V
  intercept_ : V
  deriving DecidableEq, Repr

/-- Fields of a reconstructed `GMM` detector, exactly the ones assigned in
`evaluate_model` lines 162-166. -/
structure GMMModel (V : Type) : Type where
  covariance_type : V
  weights_ : V
  means_ : V
  precisions_cholesky_ : V
  deriving DecidableEq, Repr

/-- The detector object rebuilt by step 2 of `evaluate_model`. -/
inductive Detector (V : Type) : Type
  | ocsvm (m : OCSVMModel V)
  | gmm (m : GMMModel V)
  deriving DecidableEq, Repr

/-- The stage-flag dict built by `evaluate_model`
(the dict with keys `is_kjl` and `is_nystrom` built at line 135). -/
def StageFlags : Type := List (String × Bool)

/-- Step 1 of `evaluate_model` (lines 135-149): rebuild the projection
object from `project_params` by substring dispatch on `model_name`, and
set the stage flags. An unmatched name silently yields no projection
(`project = None`) with both flags false. A missing required field is the
`KeyError` = `malformedSnapshot`. -/
def reconstructProject {V : Type} (model_name : String) (project_params : Params V) :
    Except ReloadError (Option (Projection V) × StageFlags) :=
  if strContains model_name "KJL" then
    match lookup project_params "sigma" with
    | none => .error .malformedSnapshot
    | some s =>
      match lookup project_params "Xrow" with
      | none => .error .malformedSnapshot
      | some x =>
        match lookup project_params "U" with
        | none => .error .malformedSnapshot
        | some u =>
            .ok (some (.kjl ⟨s, x, u⟩), [("is_kjl", true), ("is_nystrom", false)])
  else if strContains model_name "Nystrom" then
    match lookup project_params "sigma" with
    | none => .error .malformedSnapshot
    | some s =>
      match lookup project_params "Xrow" with
      | none => .error .malformedSnapshot
      | some x =>
        match lookup project_params "eigvec_lambda" with
        | none => .error .malformedSnapshot
        | some e =>
            .ok (some (.nystrom ⟨s, x, e⟩), [("is_kjl", false), ("is_nystrom", true)])
  else
    .ok (none, [("is_kjl", false), ("is_nystrom", false)])

/-- Step 2 of `evaluate_model` (lines 153-168): rebuild the detector from
`model_params` by substring dispatch on `model_name`; a name matching
neither detector raises `NotImplementedError` (= `unsupportedVariant`);
a missing required field is the `KeyError` = `malformedSnapshot`. -/
def reconstructModel {V : Type} (model_name : String) (model_params : Params V) :
    Except ReloadError (Detector V) :=
  if strContains model_name "OCSVM" then
    match lookup model_params "kernel" with
    | none => .error .malformedSnapshot
    | some k =>
      match lookup model_params "_gamma" with
      | none => .error .malformedSnapshot
      | some g =>
        match lookup model_params "support_vectors_" with
        | none => .error .malformedSnapshot
        | some sv =>
          match lookup model_params "_dual_coef_" with
          | none => .error .malformedSnapshot
          | some dc =>
            match lookup model_params "_intercept_" with
            | none => .error .malformedSnapshot
            | some ic => .ok (.ocsvm ⟨k, g, sv, dc, ic⟩)
  else if strContains model_name "GMM" then
    match lookup model_params "covariance_type" with
    | none => .error .malformedSnapshot
    | some ct =>
      match lookup model_params "weights_" with
      | none => .error .malformedSnapshot
      | some w =>
        match lookup model_params "means_" with
        | none => .error .malformedSnapshot
        | some m =>
          match lookup model_params "precisions_cholesky_" with
          | none => .error .malformedSnapshot
          | some pc => .ok (.gmm ⟨ct, w, m, pc⟩)
  else
    .error .unsupportedVariant

/-- The whole reconstruction phase of `evaluate_model` (steps 1 and 2,
lines 135-168), in source order: projection first, then detector. -/
def reconstruct {V : Type} (model_name : String)
    (model_params project_params : Params V) :
    Except ReloadError (Option (Projection V) × StageFlags × Detector V) :=
  match reconstructProject model_name project_params with
  | .error e => .error e
  | .ok (project, params) =>
    match reconstructModel model_name model_params with
    | .error e => .error e
    | .ok model => .ok (project, params, model)

/-! ## ROC / AUC

`_test` computes its AUC through the external calls
`sklearn.metrics.roc_curve(y_test, y_score, pos_label=1)` and
`sklearn.metrics.auc(fpr, tpr)`; that library code is not part of this
repository, so the two functions are modelled from the spec. -/

/-- Insert a rational into a list sorted in decreasing order. -/
def insertDesc (x : ℚ) : List ℚ → List ℚ
  | [] => [x]
  | y :: ys => if y < x then x :: y :: ys else y :: insertDesc x ys

/-- Sort a list of rationals in decreasing order (insertion sort). -/
def sortDesc : List ℚ → List ℚ
  | [] => []
  | x :: xs => insertDesc x (sortDesc xs)

/-- True positives at threshold `t`: points with score at least `t` whose
label is the positive label `1`. -/
def tpCount (pairs : List (ℤ × ℚ)) (t : ℚ) : Nat :=
  pairs.countP (fun p => decide (t ≤ p.2) && decide (p.1 = 1))

/-- False positives at threshold `t`: points with score at least `t` whose
label is not the positive label. -/
def fpCount (pairs : List (ℤ × ℚ)) (t : ℚ) : Nat :=
  pairs.countP (fun p => decide (t ≤ p.2) && !decide (p.1 = 1))

/-- Modelled from the spec: `sklearn.metrics.roc_curve` (not under `src/`).
"compute the ROC curve over (labels, scores) with positive label fixed to
1", as "the (false-positive-rate, true-positive-rate) sequence produced by
sweeping the score threshold from highest to lowest": one point per
distinct score value, rates normalised by the negative/positive totals,
preceded by the origin. -/
def roc_curve (y : List ℤ) (scores : List ℚ) : List (ℚ × ℚ) :=
  let pairs := y.zip scores
  let negTotal : ℚ := pairs.countP (fun p => !decide (p.1 = 1))
  let posTotal : ℚ := pairs.countP (fun p => decide (p.1 = 1))
  let thresholds := (sortDesc scores).dedup
  (0, 0) ::
    thresholds.map (fun t => ((fpCount pairs t : ℚ) / negTotal, (tpCount pairs t : ℚ) / posTotal))

/-- Modelled from the spec: `sklearn.metrics.auc` (not under `src/`).
"compute AUC as the area under that curve via the standard trapezoidal
rule". -/
def trapezoidArea : List (ℚ × ℚ) → ℚ
  | [] => 0
  | [_] => 0
  | p :: q :: rest => (q.1 - p.1) * (p.2 + q.2) / 2 + trapezoidArea (q :: rest)

/-- The AUC computed at lines 102-103 of `_test`:
`fpr, tpr, _ = roc_curve(y_test, y_score, pos_label=1); auc = metrics.auc(fpr, tpr)`. -/
def aucScore (y : List ℤ) (scores : List ℚ) : ℚ :=
  trapezoidArea (roc_curve y scores)

/-! ## `_test`: stage-isolated timing and scoring (lines 50-109) -/

/-- Embed the Python test `k in params.keys() and params[k]` on the
stage-flag dict. -/
def paramTrue (params : StageFlags) (k : String) : Bool :=
  match params with
  | [] => false
  | (k', b) :: rest => if k' = k then b else paramTrue rest k

/-- Every local of the body of `_test`: the four stage times, the scores,
the AUC, and the running total `test_time`. -/
structure TestResult (M : Type) : Type where
  X_projected : M
  y_score : List ℚ
  auc : ℚ
  std_test_time : ℚ
  proj_test_time : ℚ
  seek_test_time : ℚ
  model_test_time : ℚ
  test_time : ℚ

/-- The body of `_test` (lines 50-109). `decision` is the reconstructed
model method `decision_function`; `transform` the `transform` method of
the reconstructed projection. The profiled wall-clock measurements are oracle inputs
`projCost` (time of the `project.transform` call, used only when a
transform actually runs; the `pass` body of the final branch takes zero
time) and `modelCost` (time of the `decision_function` call).
The source computes `test_time` as `0 + std_test_time + proj_test_time +
model_test_time`; `seek_test_time = 0` is declared but never added. -/
def _testFull {M : Type} (decision : M → List ℚ) (transform : M → M)
    (X_test : M) (y_test : List ℤ) (params : StageFlags)
    (projCost modelCost : ℚ) : TestResult M :=
  let std_test_time : ℚ := 0
  let t1 : ℚ := 0 + std_test_time
  let Xp : M :=
    if paramTrue params "is_kjl" then transform X_test
    else if paramTrue params "is_nystrom" then transform X_test
    else X_test
  let proj_test_time : ℚ :=
    if paramTrue params "is_kjl" then projCost
    else if paramTrue params "is_nystrom" then projCost
    else 0
  let t2 : ℚ := t1 + proj_test_time
  let seek_test_time : ℚ := 0
  let y_score := decision Xp
  let model_test_time : ℚ := modelCost
  let t3 : ℚ := t2 + model_test_time
  let auc := aucScore y_test y_score
  ⟨Xp, y_score, auc, std_test_time, proj_test_time, seek_test_time, model_test_time, t3⟩

/-- The value returned by `_test` (line 109): the pair
`(auc, test_time)`. -/
def _test {M : Type} (decision : M → List ℚ) (transform : M → M)
    (X_test : M) (y_test : List ℤ) (params : StageFlags)
    (projCost modelCost : ℚ) : ℚ × ℚ :=
  let r := _testFull decision transform X_test y_test params projCost modelCost
  (r.auc, r.test_time)

/-! ## `evaluate_model` (lines 112-188) -/

/-- Embed `np.mean` over a list of rationals (exact arithmetic). -/
def npMean (l : List ℚ) : ℚ := l.sum / l.length

/-- One trial of step 3 of `evaluate_model`: call `_test` on deep copies of
the model, test set, flags and projection. Deep copies of immutable values
are the values themselves in this embedding. The projection argument of
`_test` is `project` when present; the flag branches of `_test` are never
taken when it is `None`. -/
def evalTrial {V M : Type} (decision : Detector V → M → List ℚ)
    (transform : Projection V → M → M)
    (model : Detector V) (project : Option (Projection V))
    (X_test : M) (y_test : List ℤ) (params : StageFlags)
    (cost : ℚ × ℚ) : ℚ × ℚ :=
  let projFn : M → M := fun X =>
    match project with
    | some p => transform p X
    | none => X
  _test (decision model) projFn X_test y_test params cost.1 cost.2

/-- Embed `evaluate_model` (lines 112-188): reconstruct the projection and the
detector from the two parameter dicts (steps 1-2), then either average
`nums` trials or run a single trial (step 3). `model_name` is
the `model_name` entry of `model_params` (installed by `main` at
line 342);
`trialCosts i` is the oracle pair of profiled stage times observed in
trial `i`. -/
def evaluate_model {V M : Type} (decision : Detector V → M → List ℚ)
    (transform : Projection V → M → M)
    (model_name : String) (model_params project_params : Params V)
    (X_test : M) (y_test : List ℤ)
    (trialCosts : Nat → ℚ × ℚ) (nums : Nat) (is_average : Bool) :
    Except ReloadError (ℚ × ℚ) :=
  match reconstruct model_name model_params project_params with
  | .error e => .error e
  | .ok (project, params, model) =>
    if is_average then
      let results := (List.range nums).map
        (fun i => evalTrial decision transform model project X_test y_test params (trialCosts i))
      .ok (npMean (results.map Prod.fst), npMean (results.map Prod.snd))
    else
      .ok (evalTrial decision transform model project X_test y_test params (trialCosts 0))

/-! ## Unit scaling and footprints (lines 191-241) -/

/-- Embed `format_unit` (lines 191-210): scale a size to KB (divide by 1e3) or
MB (divide by 1e6); any other unit string passes the size through. -/
def format_unit (size : ℚ) (unit : String) : ℚ :=
  if unit = "KB" then size / 1000
  else if unit = "MB" then size / 1000000
  else size

/-- Embed `get_model_space` (lines 213-226). The two `os.path.getsize` calls are
external; their results are the inputs `model_file_size` and
`project_file_size` (in bytes). -/
def get_model_space (model_file_size project_file_size : ℚ) (unit : String) : ℚ :=
  format_unit (model_file_size + project_file_size) unit

/-- Embed `get_test_set_space` (lines 229-241), with the result of
`os.path.getsize` as input. -/
def get_test_set_space (test_file_size : ℚ) (unit : String) : ℚ :=
  format_unit test_file_size unit

/-! ## The repeat loop of `main` (lines 336-367)

Each iteration of the loop runs I/O and evaluation inside one
`try/except Exception` block, appending to the running lists as each
stage succeeds, in source order: `model_spaces` (line 345, after both
parameter files load), `test_spaces` (line 351, after the test set
loads), and finally `aucs` and `test_times` (lines 356-357, after
`evaluate_model` returns). An exception anywhere in the body is caught
at the loop boundary, logged, and the loop continues. The fate of a
repeat is therefore one of four outcomes, each recording the values
appended before the failure point. -/

/-- Where the body of a repeat stopped, with the values it appended
first:
* `failEarly` — an exception before the `model_spaces.append` of line 345
  completed (parameter-file load or size query failed);
* `failAfterModelSpace` — `model_spaces` got its entry, then the test-set
  load or size query raised;
* `failAfterTestSpace` — `model_spaces` and `test_spaces` got entries,
  then `evaluate_model` raised (unsupported variant, malformed snapshot,
  or scoring error);
* `success` — the whole body ran; all four lists got one entry. -/
inductive RepeatOutcome : Type
  | failEarly
  | failAfterModelSpace (mspace : ℚ)
  | failAfterTestSpace (mspace tspace : ℚ)
  | success (mspace tspace auc ttime : ℚ)
  deriving DecidableEq, Repr

/-- True when the repeat completed without raising. -/
def RepeatOutcome.isSuccess : RepeatOutcome → Bool
  | .success _ _ _ _ => true
  | _ => false

/-- True when the append of line 345 to `model_spaces` ran. -/
def RepeatOutcome.reachedModelSpace : RepeatOutcome → Bool
  | .failEarly => false
  | _ => true

/-- True when the append of line 351 to `test_spaces` ran. -/
def RepeatOutcome.reachedTestSpace : RepeatOutcome → Bool
  | .failEarly => false
  | .failAfterModelSpace _ => false
  | _ => true

/-- The result-record lists `main` accumulates across repeats (the ones
the claims are about; `train_times`, `params`, `space_sizes` stay empty). -/
structure MainState : Type where
  aucs : List ℚ
  test_times : List ℚ
  model_spaces : List ℚ
  test_spaces : List ℚ
  deriving DecidableEq, Repr

/-- One iteration of the repeat loop (lines 336-360): append to each list
exactly when the corresponding source line was reached before the
exception (if any); the `except` clause only logs. -/
def runRepeat (s : MainState) : RepeatOutcome → MainState
  | .failEarly => s
  | .failAfterModelSpace m =>
      { s with model_spaces := s.model_spaces ++ [m] }
  | .failAfterTestSpace m t =>
      { s with model_spaces := s.model_spaces ++ [m],
               test_spaces := s.test_spaces ++ [t] }
  | .success m t a tt =>
      { aucs := s.aucs ++ [a], test_times := s.test_times ++ [tt],
        model_spaces := s.model_spaces ++ [m], test_spaces := s.test_spaces ++ [t] }

/-- Embed `n_repeats = 5` (line 321). -/
def n_repeats : Nat := 5

/-- The whole repeat loop, starting from the empty lists of
lines 323-331, over the given sequence of per-repeat outcomes. -/
def mainLoop (outcomes : List RepeatOutcome) : MainState :=
  outcomes.foldl runRepeat ⟨[], [], [], []⟩

/-- The loop of `main` over its `n_repeats = 5` repeats, repeat `i`
having outcome `env i`. -/
def mainRun (env : Nat → RepeatOutcome) : MainState :=
  mainLoop ((List.range n_repeats).map env)

/-! ## Helper lemmas (shared; not claim theorems) -/

/-- Generic step-counting over the repeat loop: if one iteration extends
the list selected by `g` exactly when the outcome satisfies `p`, then the
folded loop extends it by the `p`-count of the outcome sequence. -/
theorem foldl_length_count (g : MainState → List ℚ) (p : RepeatOutcome → Bool)
    (hg : ∀ s o, (g (runRepeat s o)).length = (g s).length + (if p o then 1 else 0)) :
    ∀ (outcomes : List RepeatOutcome) (s : MainState),
      (g (outcomes.foldl runRepeat s)).length = (g s).length + outcomes.countP p := by
  intro outcomes
  induction outcomes with
  | nil => intro s; simp
  | cons o rest ih =>
    intro s
    rw [List.foldl_cons, ih (runRepeat s o), hg s o, List.countP_cons]
    split <;> omega

/-- The lengths of the four lists accumulated by the repeat loop: `aucs`
and `test_times` grow once per successful repeat, `model_spaces` once per
repeat reaching line 345, `test_spaces` once per repeat reaching
line 351. -/
theorem mainLoop_lengths (outcomes : List RepeatOutcome) :
    (mainLoop outcomes).aucs.length = outcomes.countP RepeatOutcome.isSuccess ∧
    (mainLoop outcomes).test_times.length = outcomes.countP RepeatOutcome.isSuccess ∧
    (mainLoop outcomes).model_spaces.length =
        outcomes.countP RepeatOutcome.reachedModelSpace ∧
    (mainLoop outcomes).test_spaces.length =
        outcomes.countP RepeatOutcome.reachedTestSpace := by
  have ha := foldl_length_count MainState.aucs RepeatOutcome.isSuccess
    (by intro s o; cases o <;> simp [runRepeat, RepeatOutcome.isSuccess])
    outcomes ⟨[], [], [], []⟩
  have ht := foldl_length_count MainState.test_times RepeatOutcome.isSuccess
    (by intro s o; cases o <;> simp [runRepeat, RepeatOutcome.isSuccess])
    outcomes ⟨[], [], [], []⟩
  have hm := foldl_length_count MainState.model_spaces RepeatOutcome.reachedModelSpace
    (by intro s o; cases o <;> simp [runRepeat, RepeatOutcome.reachedModelSpace])
    outcomes ⟨[], [], [], []⟩
  have hs := foldl_length_count MainState.test_spaces RepeatOutcome.reachedTestSpace
    (by intro s o; cases o <;> simp [runRepeat, RepeatOutcome.reachedTestSpace])
    outcomes ⟨[], [], [], []⟩
  exact ⟨by simpa [mainLoop] using ha, by simpa [mainLoop] using ht,
    by simpa [mainLoop] using hm, by simpa [mainLoop] using hs⟩

/-- The AUC component of a trial does not depend on the timing oracle:
`_test` computes the scores and the AUC from the data alone. -/
theorem evalTrial_auc_const {V M : Type} (decision : Detector V → M → List ℚ)
    (transform : Projection V → M → M) (model : Detector V)
    (project : Option (Projection V)) (X_test : M) (y_test : List ℤ)
    (params : StageFlags) (c c' : ℚ × ℚ) :
    (evalTrial decision transform model project X_test y_test params c).1 =
    (evalTrial decision transform model project X_test y_test params c').1 := rfl

/-- Taking `npMean` of `n` copies of a value gives that value, for
`n > 0`. -/
theorem npMean_of_const (f : Nat → ℚ) (n : Nat) (hn : 0 < n)
    (hconst : ∀ i, f i = f 0) :
    npMean ((List.range n).map f) = f 0 := by
  have hrep : (List.range n).map f = List.replicate n (f 0) := by
    refine List.eq_replicate_iff.mpr ⟨by simp, ?_⟩
    intro b hb
    rcases List.mem_map.mp hb with ⟨i, _, rfl⟩
    exact hconst i
  rw [hrep, npMean, List.sum_replicate, List.length_replicate, nsmul_eq_mul]
  have hn' : (n : ℚ) ≠ 0 := Nat.cast_ne_zero.mpr hn.ne'
  field_simp

/-! ## Claim theorems -/

/-- C1: a variant tag (model_name) containing none of the detector
substrings `OCSVM`, `GMM` and none of the projection substrings `KJL`,
`Nystrom` makes `evaluate_model` fail with the unsupported-variant error
(the `raise NotImplementedError()` of line 168); it never returns a
silently-reconstructed Identity-projection-plus-fallback-detector
result. -/
theorem unsupported_variant_rejected {V M : Type}
    (decision : Detector V → M → List ℚ) (transform : Projection V → M → M)
    (model_name : String) (model_params project_params : Params V)
    (X_test : M) (y_test : List ℤ) (trialCosts : Nat → ℚ × ℚ)
    (nums : Nat) (is_average : Bool)
    (hocsvm : strContains model_name "OCSVM" = false)
    (hgmm : strContains model_name "GMM" = false)
    (hkjl : strContains model_name "KJL" = false)
    (hnys : strContains model_name "Nystrom" = false) :
    evaluate_model decision transform model_name model_params project_params
        X_test y_test trialCosts nums is_average =
      .error .unsupportedVariant := by
  simp [evaluate_model, reconstruct, reconstructProject, reconstructModel,
    hocsvm, hgmm, hkjl, hnys]

/-- Witness for C1 at the concrete unrecognized tag `"AE(relu)"`. -/
theorem unsupported_variant_rejected_witness :
    evaluate_model (fun (_ : Detector ℚ) (_ : Unit) => ([] : List ℚ))
        (fun _ x => x) "AE(relu)" [] [] () [] (fun _ => (0, 0)) 20 true =
      .error .unsupportedVariant :=
  unsupported_variant_rejected _ _ _ _ _ _ _ _ _ _
    (by decide) (by decide) (by decide) (by decide)

/-- C10: `format_unit` passes the size through unchanged for any unit
string other than `"KB"` and `"MB"` (the final `else: pass`). -/
theorem format_unit_unknown_passthrough (size : ℚ) (unit : String)
    (h1 : unit ≠ "KB") (h2 : unit ≠ "MB") :
    format_unit size unit = size := by
  simp [format_unit, h1, h2]

/-- Witness for C10 at the concrete unit `"GB"`. -/
theorem format_unit_unknown_passthrough_witness :
    format_unit 7 "GB" = 7 :=
  format_unit_unknown_passthrough 7 "GB" (by decide) (by decide)

/-- C9: for every non-negative size, `format_unit` divides by `1e3` for
`"KB"` and by `1e6` for `"MB"`, and `get_model_space` reports the scaled
sum of the detector parameter file size and the projection parameter
file size. -/
theorem format_unit_scaling (size a b : ℚ) (unit : String) (_h : 0 ≤ size) :
    format_unit size "KB" = size / 1000 ∧
    format_unit size "MB" = size / 1000000 ∧
    get_model_space a b unit = format_unit (a + b) unit := by
  refine ⟨rfl, ?_, rfl⟩
  simp [format_unit]

/-- Witness for C9 at size 2000 bytes and file sizes 1 and 2. -/
theorem format_unit_scaling_witness :
    format_unit 2000 "KB" = 2000 / 1000 ∧
    format_unit 2000 "MB" = 2000 / 1000000 ∧
    get_model_space 1 2 "KB" = format_unit (1 + 2) "KB" :=
  format_unit_scaling 2000 1 2 "KB" (by decide)

/-- A boolean predicate and its negation partition the length of a
list. -/
theorem countP_split (p : RepeatOutcome → Bool) (l : List RepeatOutcome) :
    l.countP p + l.countP (fun a => !p a) = l.length := by
  induction l with
  | nil => simp
  | cons a t ih =>
    by_cases h : p a <;> simp [List.countP_cons, h, ← ih] <;> omega

/-- C2 (counterexample): the claim "each of `aucs`, `test_times`,
`model_spaces`, `test_spaces` has exactly as many entries as the number
of successful repeats; a failing repeat contributes zero entries to every
one of these lists" is false: a run whose five repeats all fail inside
`evaluate_model` (after line 345 ran) leaves `model_spaces` with five
entries although zero repeats succeeded. -/
theorem main_lists_cex :
    (mainRun (fun _ => .failAfterTestSpace 1 2)).model_spaces.length = 5 ∧
    ((List.range n_repeats).map (fun _ => RepeatOutcome.failAfterTestSpace 1 2)).countP
        RepeatOutcome.isSuccess = 0 ∧
    (mainRun (fun _ => .failAfterTestSpace 1 2)).aucs.length = 0 := by
  refine ⟨?_, by decide, ?_⟩ <;> rfl

/-- C2 (amended): `aucs` and `test_times` have exactly as many entries as
the number of successful repeats, and a failing repeat contributes zero
entries to them; `model_spaces` (resp. `test_spaces`) instead gains an
entry for every repeat that reaches the appends of line 345 (resp. line
351), even if the repeat fails later. -/
theorem main_list_lengths (outcomes : List RepeatOutcome) :
    (mainLoop outcomes).aucs.length = outcomes.countP RepeatOutcome.isSuccess ∧
    (mainLoop outcomes).test_times.length = outcomes.countP RepeatOutcome.isSuccess ∧
    (mainLoop outcomes).model_spaces.length =
        outcomes.countP RepeatOutcome.reachedModelSpace ∧
    (mainLoop outcomes).test_spaces.length =
        outcomes.countP RepeatOutcome.reachedTestSpace :=
  mainLoop_lengths outcomes

/-- C3: an exception in one of the `n_repeats = 5` repeats is confined to
that repeat: every outcome of the sequence is folded in (later repeats
are still attempted), and when exactly one repeat fails — at any stage —
`aucs` and `test_times` end with exactly 4 entries. -/
theorem repeat_failure_isolated (env : Nat → RepeatOutcome)
    (hone : ((List.range n_repeats).map env).countP
        (fun o => !o.isSuccess) = 1) :
    (mainRun env).aucs.length = 4 ∧ (mainRun env).test_times.length = 4 := by
  have hlen : ((List.range n_repeats).map env).length = 5 := by simp [n_repeats]
  have hsplit := countP_split RepeatOutcome.isSuccess ((List.range n_repeats).map env)
  have hsucc : ((List.range n_repeats).map env).countP RepeatOutcome.isSuccess = 4 := by
    omega
  have h := mainLoop_lengths ((List.range n_repeats).map env)
  exact ⟨by rw [mainRun, h.1, hsucc], by rw [mainRun, h.2.1, hsucc]⟩

/-- Witness for C3: five repeats where repeat 2 fails inside
`evaluate_model` and the others succeed leave 4 AUC and 4 test-time
entries. -/
theorem repeat_failure_isolated_witness :
    (mainRun (fun i => if i = 2 then .failAfterTestSpace 1 1
        else .success 1 1 1 1)).aucs.length = 4 ∧
    (mainRun (fun i => if i = 2 then .failAfterTestSpace 1 1
        else .success 1 1 1 1)).test_times.length = 4 :=
  repeat_failure_isolated _ (by decide)

/-- C4: reconstruction is pure field copying — for each supported variant
tag, the fields of the reconstructed object are exactly (bit-identically) the
values stored in the source mapping under the source keys, with no
default substitution: `sigma`/`Xrow`/`U` for a `KJL` tag,
`sigma`/`Xrow`/`eigvec_lambda` for a `Nystrom` tag,
`kernel`/`_gamma`/`support_vectors_`/`_dual_coef_`/`_intercept_` for an
`OCSVM` tag, and
`covariance_type`/`weights_`/`means_`/`precisions_cholesky_` for a `GMM`
tag. No fitting is modelled because none occurs: reconstruction is a pure
function of the mappings. -/
theorem reconstruction_copies_fields {V : Type} (model_name : String) :
    (∀ (pp : Params V) s x u,
      strContains model_name "KJL" = true →
      lookup pp "sigma" = some s → lookup pp "Xrow" = some x →
      lookup pp "U" = some u →
      reconstructProject model_name pp =
        .ok (some (.kjl ⟨s, x, u⟩), [("is_kjl", true), ("is_nystrom", false)])) ∧
    (∀ (pp : Params V) s x e,
      strContains model_name "KJL" = false →
      strContains model_name "Nystrom" = true →
      lookup pp "sigma" = some s → lookup pp "Xrow" = some x →
      lookup pp "eigvec_lambda" = some e →
      reconstructProject model_name pp =
        .ok (some (.nystrom ⟨s, x, e⟩), [("is_kjl", false), ("is_nystrom", true)])) ∧
    (∀ (mp : Params V) k g sv dc ic,
      strContains model_name "OCSVM" = true →
      lookup mp "kernel" = some k → lookup mp "_gamma" = some g →
      lookup mp "support_vectors_" = some sv →
      lookup mp "_dual_coef_" = some dc →
      lookup mp "_intercept_" = some ic →
      reconstructModel model_name mp = .ok (.ocsvm ⟨k, g, sv, dc, ic⟩)) ∧
    (∀ (mp : Params V) ct w m pc,
      strContains model_name "OCSVM" = false →
      strContains model_name "GMM" = true →
      lookup mp "covariance_type" = some ct → lookup mp "weights_" = some w →
      lookup mp "means_" = some m → lookup mp "precisions_cholesky_" = some pc →
      reconstructModel model_name mp = .ok (.gmm ⟨ct, w, m, pc⟩)) := by
  refine ⟨?_, ?_, ?_, ?_⟩
  · intro pp s x u hk h1 h2 h3
    simp [reconstructProject, hk, h1, h2, h3]
  · intro pp s x e hk hn h1 h2 h3
    simp [reconstructProject, hk, hn, h1, h2, h3]
  · intro mp k g sv dc ic ho h1 h2 h3 h4 h5
    simp [reconstructModel, ho, h1, h2, h3, h4, h5]
  · intro mp ct w m pc ho hg h1 h2 h3 h4
    simp [reconstructModel, ho, hg, h1, h2, h3, h4]

/-- Witness for C4: concrete mappings over `ℚ` for all four variants. -/
theorem reconstruction_copies_fields_witness :
    reconstructProject "KJL-OCSVM(rbf)" [("sigma", (3 : ℚ)), ("Xrow", 4), ("U", 5)] =
      .ok (some (.kjl ⟨3, 4, 5⟩), [("is_kjl", true), ("is_nystrom", false)]) ∧
    reconstructProject "Nystrom-OCSVM(rbf)"
        [("sigma", (3 : ℚ)), ("Xrow", 4), ("eigvec_lambda", 6)] =
      .ok (some (.nystrom ⟨3, 4, 6⟩), [("is_kjl", false), ("is_nystrom", true)]) ∧
    reconstructModel "OCSVM(rbf)"
        [("kernel", (1 : ℚ)), ("_gamma", 2), ("support_vectors_", 3),
         ("_dual_coef_", 4), ("_intercept_", 5)] =
      .ok (.ocsvm ⟨1, 2, 3, 4, 5⟩) ∧
    reconstructModel "GMM(full)"
        [("covariance_type", (1 : ℚ)), ("weights_", 2), ("means_", 3),
         ("precisions_cholesky_", 4)] =
      .ok (.gmm ⟨1, 2, 3, 4⟩) :=
  ⟨(reconstruction_copies_fields "KJL-OCSVM(rbf)").1 _ 3 4 5 (by decide) rfl rfl rfl,
   (reconstruction_copies_fields "Nystrom-OCSVM(rbf)").2.1 _ 3 4 6
     (by decide) (by decide) rfl rfl rfl,
   (reconstruction_copies_fields "OCSVM(rbf)").2.2.1 _ 1 2 3 4 5
     (by decide) rfl rfl rfl rfl rfl,
   (reconstruction_copies_fields "GMM(full)").2.2.2 _ 1 2 3 4
     (by decide) (by decide) rfl rfl rfl rfl⟩

/-- Helper: a `KJL` tag with a missing projection field makes step 1 fail
with the missing-key error. -/
theorem reconstructProject_kjl_missing {V : Type} (name : String) (pp : Params V)
    (hk : strContains name "KJL" = true)
    (h : lookup pp "sigma" = none ∨ lookup pp "Xrow" = none ∨ lookup pp "U" = none) :
    reconstructProject name pp = .error .malformedSnapshot := by
  unfold reconstructProject
  rw [hk]
  rcases h with h | h | h
  · simp [h]
  · cases h1 : lookup pp "sigma" <;> simp [h1, h]
  · cases h1 : lookup pp "sigma" <;> cases h2 : lookup pp "Xrow" <;> simp [h1, h2, h]

/-- Helper: a `Nystrom` tag (not also `KJL`) with a missing projection
field makes step 1 fail with the missing-key error. -/
theorem reconstructProject_nystrom_missing {V : Type} (name : String) (pp : Params V)
    (hk : strContains name "KJL" = false) (hn : strContains name "Nystrom" = true)
    (h : lookup pp "sigma" = none ∨ lookup pp "Xrow" = none ∨
         lookup pp "eigvec_lambda" = none) :
    reconstructProject name pp = .error .malformedSnapshot := by
  unfold reconstructProject
  rw [hk, hn]
  rcases h with h | h | h
  · simp [h]
  · cases h1 : lookup pp "sigma" <;> simp [h1, h]
  · cases h1 : lookup pp "sigma" <;> cases h2 : lookup pp "Xrow" <;> simp [h1, h2, h]

/-- Helper: an `OCSVM` tag with a missing detector field makes step 2 fail
with the missing-key error. -/
theorem reconstructModel_ocsvm_missing {V : Type} (name : String) (mp : Params V)
    (ho : strContains name "OCSVM" = true)
    (h : lookup mp "kernel" = none ∨ lookup mp "_gamma" = none ∨
         lookup mp "support_vectors_" = none ∨ lookup mp "_dual_coef_" = none ∨
         lookup mp "_intercept_" = none) :
    reconstructModel name mp = .error .malformedSnapshot := by
  unfold reconstructModel
  rw [ho]
  rcases h with h | h | h | h | h
  · simp [h]
  · cases h1 : lookup mp "kernel" <;> simp [h1, h]
  · cases h1 : lookup mp "kernel" <;> cases h2 : lookup mp "_gamma" <;> simp [h1, h2, h]
  · cases h1 : lookup mp "kernel" <;> cases h2 : lookup mp "_gamma" <;>
      cases h3 : lookup mp "support_vectors_" <;> simp [h1, h2, h3, h]
  · cases h1 : lookup mp "kernel" <;> cases h2 : lookup mp "_gamma" <;>
      cases h3 : lookup mp "support_vectors_" <;> cases h4 : lookup mp "_dual_coef_" <;>
      simp [h1, h2, h3, h4, h]

/-- Helper: a `GMM` tag (not also `OCSVM`) with a missing detector field
makes step 2 fail with the missing-key error. -/
theorem reconstructModel_gmm_missing {V : Type} (name : String) (mp : Params V)
    (ho : strContains name "OCSVM" = false) (hg : strContains name "GMM" = true)
    (h : lookup mp "covariance_type" = none ∨ lookup mp "weights_" = none ∨
         lookup mp "means_" = none ∨ lookup mp "precisions_cholesky_" = none) :
    reconstructModel name mp = .error .malformedSnapshot := by
  unfold reconstructModel
  rw [ho, hg]
  rcases h with h | h | h | h
  · simp [h]
  · cases h1 : lookup mp "covariance_type" <;> simp [h1, h]
  · cases h1 : lookup mp "covariance_type" <;> cases h2 : lookup mp "weights_" <;>
      simp [h1, h2, h]
  · cases h1 : lookup mp "covariance_type" <;> cases h2 : lookup mp "weights_" <;>
      cases h3 : lookup mp "means_" <;> simp [h1, h2, h3, h]

/-- C5: a recognized variant tag whose mapping is missing one of that
required fields of that variant makes `evaluate_model` fail with the
malformed-snapshot (missing-key) error, never substituting a default:
one arm per variant kind, the detector arms under the hypothesis that the
projection step itself succeeded (so the missing detector field is what
fails). -/
theorem missing_field_malformed {V M : Type} (decision : Detector V → M → List ℚ)
    (transform : Projection V → M → M) (model_name : String)
    (X_test : M) (y_test : List ℤ) (trialCosts : Nat → ℚ × ℚ)
    (nums : Nat) (is_average : Bool) :
    (∀ (mp pp : Params V),
      strContains model_name "KJL" = true →
      (lookup pp "sigma" = none ∨ lookup pp "Xrow" = none ∨ lookup pp "U" = none) →
      evaluate_model decision transform model_name mp pp X_test y_test
          trialCosts nums is_average = .error .malformedSnapshot) ∧
    (∀ (mp pp : Params V),
      strContains model_name "KJL" = false →
      strContains model_name "Nystrom" = true →
      (lookup pp "sigma" = none ∨ lookup pp "Xrow" = none ∨
       lookup pp "eigvec_lambda" = none) →
      evaluate_model decision transform model_name mp pp X_test y_test
          trialCosts nums is_average = .error .malformedSnapshot) ∧
    (∀ (mp pp : Params V) (prj : Option (Projection V) × StageFlags),
      reconstructProject model_name pp = .ok prj →
      strContains model_name "OCSVM" = true →
      (lookup mp "kernel" = none ∨ lookup mp "_gamma" = none ∨
       lookup mp "support_vectors_" = none ∨ lookup mp "_dual_coef_" = none ∨
       lookup mp "_intercept_" = none) →
      evaluate_model decision transform model_name mp pp X_test y_test
          trialCosts nums is_average = .error .malformedSnapshot) ∧
    (∀ (mp pp : Params V) (prj : Option (Projection V) × StageFlags),
      reconstructProject model_name pp = .ok prj →
      strContains model_name "OCSVM" = false →
      strContains model_name "GMM" = true →
      (lookup mp "covariance_type" = none ∨ lookup mp "weights_" = none ∨
       lookup mp "means_" = none ∨ lookup mp "precisions_cholesky_" = none) →
      evaluate_model decision transform model_name mp pp X_test y_test
          trialCosts nums is_average = .error .malformedSnapshot) := by
  refine ⟨?_, ?_, ?_, ?_⟩
  · intro mp pp hk h
    have hp := reconstructProject_kjl_missing model_name pp hk h
    simp [evaluate_model, reconstruct, hp]
  · intro mp pp hk hn h
    have hp := reconstructProject_nystrom_missing model_name pp hk hn h
    simp [evaluate_model, reconstruct, hp]
  · intro mp pp prj hprj ho h
    obtain ⟨project, params⟩ := prj
    have hm := reconstructModel_ocsvm_missing model_name mp ho h
    simp [evaluate_model, reconstruct, hprj, hm]
  · intro mp pp prj hprj ho hg h
    obtain ⟨project, params⟩ := prj
    have hm := reconstructModel_gmm_missing model_name mp ho hg h
    simp [evaluate_model, reconstruct, hprj, hm]

/-- Witness for C5: an `OCSVM` mapping without `support_vectors_` and a
`GMM` mapping without `weights_` both fail with the malformed-snapshot
error. -/
theorem missing_field_malformed_witness :
    evaluate_model (fun (_ : Detector ℚ) (_ : Unit) => ([] : List ℚ))
        (fun _ x => x) "OCSVM(rbf)"
        [("kernel", (1 : ℚ)), ("_gamma", 2), ("_dual_coef_", 4), ("_intercept_", 5)]
        [] () [] (fun _ => (0, 0)) 20 true = .error .malformedSnapshot ∧
    evaluate_model (fun (_ : Detector ℚ) (_ : Unit) => ([] : List ℚ))
        (fun _ x => x) "GMM(full)"
        [("covariance_type", (1 : ℚ)), ("means_", 3), ("precisions_cholesky_", 4)]
        [] () [] (fun _ => (0, 0)) 20 true = .error .malformedSnapshot :=
  ⟨(missing_field_malformed _ _ "OCSVM(rbf)" _ _ _ _ _).2.2.1 _ _
      (none, [("is_kjl", false), ("is_nystrom", false)]) rfl (by decide)
      (Or.inr (Or.inr (Or.inl rfl))),
   (missing_field_malformed _ _ "GMM(full)" _ _ _ _ _).2.2.2 _ _
      (none, [("is_kjl", false), ("is_nystrom", false)]) rfl (by decide) (by decide)
      (Or.inr (Or.inl rfl))⟩

/-- C6: the total test time returned by `_test` is the sum of the four
stage times; standardization and seek always contribute exactly zero,
projection contributes zero when neither `is_kjl` nor `is_nystrom` is
set, and the returned pair is `(AUC, total test time)`. (In the source
`seek_test_time = 0` is declared but never added to the total, which
leaves the sum identity intact.) -/
theorem test_time_decomposition {M : Type} (decision : M → List ℚ)
    (transform : M → M) (X_test : M) (y_test : List ℤ) (params : StageFlags)
    (projCost modelCost : ℚ) :
    (_testFull decision transform X_test y_test params projCost modelCost).test_time =
      (_testFull decision transform X_test y_test params projCost modelCost).std_test_time +
      (_testFull decision transform X_test y_test params projCost modelCost).proj_test_time +
      (_testFull decision transform X_test y_test params projCost modelCost).seek_test_time +
      (_testFull decision transform X_test y_test params projCost modelCost).model_test_time ∧
    (_testFull decision transform X_test y_test params projCost modelCost).std_test_time = 0 ∧
    (_testFull decision transform X_test y_test params projCost modelCost).seek_test_time = 0 ∧
    (paramTrue params "is_kjl" = false → paramTrue params "is_nystrom" = false →
      (_testFull decision transform X_test y_test params projCost modelCost).proj_test_time = 0) ∧
    _test decision transform X_test y_test params projCost modelCost =
      ((_testFull decision transform X_test y_test params projCost modelCost).auc,
       (_testFull decision transform X_test y_test params projCost modelCost).test_time) := by
  refine ⟨?_, rfl, rfl, ?_, rfl⟩
  · simp [_testFull]
  · intro hk hn
    simp [_testFull, hk, hn]

/-- Witness for C6: with both stage flags false the projection stage
contributes zero and the total is the prediction time alone. -/
theorem test_time_decomposition_witness :
    (_testFull (fun _ : Unit => ([] : List ℚ)) (fun x => x) () []
        [("is_kjl", false), ("is_nystrom", false)] 3 5).proj_test_time = 0 ∧
    (_testFull (fun _ : Unit => ([] : List ℚ)) (fun x => x) () []
        [("is_kjl", false), ("is_nystrom", false)] 3 5).test_time =
      (_testFull (fun _ : Unit => ([] : List ℚ)) (fun x => x) () []
        [("is_kjl", false), ("is_nystrom", false)] 3 5).std_test_time +
      (_testFull (fun _ : Unit => ([] : List ℚ)) (fun x => x) () []
        [("is_kjl", false), ("is_nystrom", false)] 3 5).proj_test_time +
      (_testFull (fun _ : Unit => ([] : List ℚ)) (fun x => x) () []
        [("is_kjl", false), ("is_nystrom", false)] 3 5).seek_test_time +
      (_testFull (fun _ : Unit => ([] : List ℚ)) (fun x => x) () []
        [("is_kjl", false), ("is_nystrom", false)] 3 5).model_test_time :=
  ⟨(test_time_decomposition (fun _ : Unit => ([] : List ℚ)) (fun x => x) () []
      [("is_kjl", false), ("is_nystrom", false)] 3 5).2.2.2.1 (by decide) (by decide),
   (test_time_decomposition (fun _ : Unit => ([] : List ℚ)) (fun x => x) () []
      [("is_kjl", false), ("is_nystrom", false)] 3 5).1⟩

/-- C7: with `is_average` true, `evaluate_model` runs `_test` exactly
`nums` times (each trial on value-copies of model, projection, test set
and flags — deep copies of immutable values in a pure embedding) and
returns the arithmetic means of the per-trial AUCs and test times; the
per-trial AUC never depends on the timing oracle, so with noiseless
trials the averaged AUC equals the single-trial AUC; with `is_average`
false it returns the raw pair of the one trial. -/
theorem trial_averaging {V M : Type} (decision : Detector V → M → List ℚ)
    (transform : Projection V → M → M) (model_name : String)
    (mp pp : Params V) (X_test : M) (y_test : List ℤ)
    (trialCosts : Nat → ℚ × ℚ) (nums : Nat)
    (project : Option (Projection V)) (params : StageFlags) (model : Detector V)
    (hrec : reconstruct model_name mp pp = .ok (project, params, model))
    (hn : 0 < nums) :
    ((List.range nums).map
        (fun i => evalTrial decision transform model project X_test y_test params
          (trialCosts i))).length = nums ∧
    evaluate_model decision transform model_name mp pp X_test y_test trialCosts
        nums true =
      .ok (npMean ((List.range nums).map
            (fun i => (evalTrial decision transform model project X_test y_test params
              (trialCosts i)).1)),
           npMean ((List.range nums).map
            (fun i => (evalTrial decision transform model project X_test y_test params
              (trialCosts i)).2))) ∧
    npMean ((List.range nums).map
        (fun i => (evalTrial decision transform model project X_test y_test params
          (trialCosts i)).1)) =
      (evalTrial decision transform model project X_test y_test params
        (trialCosts 0)).1 ∧
    evaluate_model decision transform model_name mp pp X_test y_test trialCosts
        nums false =
      .ok (evalTrial decision transform model project X_test y_test params
        (trialCosts 0)) := by
  refine ⟨by simp, ?_, ?_, ?_⟩
  · simp [evaluate_model, hrec, List.map_map, Function.comp_def]
  · exact npMean_of_const _ nums hn
      (fun i => evalTrial_auc_const decision transform model project X_test y_test
        params (trialCosts i) (trialCosts 0))
  · simp [evaluate_model, hrec]

/-- Witness for C7 at a concrete `GMM` snapshot, two trials. -/
theorem trial_averaging_witness :
    evaluate_model (fun (_ : Detector ℚ) (_ : Unit) => ([] : List ℚ)) (fun _ x => x)
        "GMM(full)"
        [("covariance_type", (1 : ℚ)), ("weights_", 2), ("means_", 3),
         ("precisions_cholesky_", 4)]
        [] () [] (fun _ => (0, 0)) 2 false =
      .ok (evalTrial (fun (_ : Detector ℚ) (_ : Unit) => ([] : List ℚ)) (fun _ x => x)
        (.gmm ⟨1, 2, 3, 4⟩) none () [] [("is_kjl", false), ("is_nystrom", false)]
        (0, 0)) :=
  (trial_averaging (fun (_ : Detector ℚ) (_ : Unit) => ([] : List ℚ)) (fun _ x => x)
    "GMM(full)"
    [("covariance_type", (1 : ℚ)), ("weights_", 2), ("means_", 3),
     ("precisions_cholesky_", 4)]
    [] () [] (fun _ => (0, 0)) 2 none
    [("is_kjl", false), ("is_nystrom", false)] (.gmm ⟨1, 2, 3, 4⟩)
    rfl (by decide)).2.2.2

/-- C8: the AUC of `_test` is the trapezoidal area under the
(false-positive-rate, true-positive-rate) curve swept from the highest
score threshold to the lowest with positive label 1, applied to the
scores of the prediction stage; on labels `[0,0,1,1]` with scores
`[0.1, 0.2, -0.1, -0.2]` this AUC is 0. -/
theorem auc_trapezoid_orientation :
    (∀ {M : Type} (decision : M → List ℚ) (transform : M → M) (X_test : M)
        (y_test : List ℤ) (params : StageFlags) (projCost modelCost : ℚ),
      (_testFull decision transform X_test y_test params projCost modelCost).auc =
        aucScore y_test
          (_testFull decision transform X_test y_test params projCost modelCost).y_score) ∧
    aucScore [0, 0, 1, 1] [0.1, 0.2, -0.1, -0.2] = 0 := by
  constructor
  · intro M decision transform X_test y_test params projCost modelCost
    rfl
  · norm_num [aucScore, roc_curve, sortDesc, insertDesc, fpCount, tpCount,
      trapezoidArea, List.dedup, List.countP, List.countP.go, List.zip, List.zipWith]

end KjlReload
